import Mathlib

/-
Verification of the screening-scraper pipeline (scraper.py).

The Python functions fetch_movie_details, parse_movie_details, create_event
and the combining loop of generate_calendar are embedded as total Lean
functions.  Python string operations (strip, split, replace, substring
containment, str.isdigit, int conversion) are modelled by structurally
recursive functions over lists of characters so that every definition
evaluates inside the kernel.  Caveats of the embedding, stated once here:
Python str.isdigit and str.strip also accept some non-ASCII digit and space
characters, and Python int() accepts underscore digit grouping; these exotic
inputs are outside the scope of the claims and are not modelled.
-/

/-- Whitespace characters removed by the Python str.strip method
(ASCII subset: space, tab, newline, carriage return, vertical tab, form feed). -/
def isPySpace (c : Char) : Bool :=
  c == ' ' || c == '\t' || c == '\n' || c == '\r' || c == Char.ofNat 11 || c == Char.ofNat 12

/-- Remove leading and trailing whitespace from a character list. -/
def trimList (l : List Char) : List Char :=
  ((l.dropWhile isPySpace).reverse.dropWhile isPySpace).reverse

/-- Python str.strip with no argument. -/
def pyStrip (s : String) : String :=
  String.mk (trimList s.toList)

/-- Python str.isdigit restricted to ASCII digits: true iff the string is
nonempty and every character is a digit. -/
def pyIsdigit (s : String) : Bool :=
  s != "" && s.toList.all Char.isDigit

/-- Does the character list contain the given character. -/
def strContainsChar (s : String) (c : Char) : Bool :=
  s.toList.any (· == c)

/-- Python any(c.isdigit() for c in s). -/
def strHasDigit (s : String) : Bool :=
  s.toList.any Char.isDigit

/-- Python str.rstrip with a single character argument: drop every trailing
occurrence of that character. -/
def rstripChar (s : String) (c : Char) : String :=
  String.mk ((s.toList.reverse.dropWhile (· == c)).reverse)

/-- Does the needle occur as a contiguous subsequence of the haystack.
Models the Python operator: needle in hay. -/
def containsSeq (needle : List Char) : List Char → Bool
  | [] => needle.isEmpty
  | c :: rest => needle.isPrefixOf (c :: rest) || containsSeq needle rest

/-- Python substring containment: strContains hay needle means needle in hay. -/
def strContains (hay needle : String) : Bool :=
  containsSeq needle.toList hay.toList

/-- Python str.split with a one-character separator.  Splitting the empty
string yields a list holding one empty string, as in Python. -/
def splitOnChar (sep : Char) : List Char → List (List Char)
  | [] => [[]]
  | c :: rest =>
      match splitOnChar sep rest with
      | [] => [[c]]
      | h :: t => if c == sep then [] :: h :: t else (c :: h) :: t

/-- One non-overlapping left-to-right replacement pass, fuelled by the input
length; the fuel is an upper bound on the number of steps, each step consumes
at least one input character when the pattern is nonempty. -/
def replaceFuel (pat repl : List Char) : Nat → List Char → List Char
  | _, [] => []
  | 0, s => s
  | fuel + 1, c :: rest =>
      if pat.isPrefixOf (c :: rest) then
        repl ++ replaceFuel pat repl fuel (List.drop (pat.length - 1) rest)
      else
        c :: replaceFuel pat repl fuel rest

/-- Python str.replace for a nonempty pattern (all the patterns used by the
scraper are nonempty; an empty pattern leaves the string unchanged here). -/
def pyReplace (s pat repl : String) : String :=
  if pat.length == 0 then s
  else String.mk (replaceFuel pat.toList repl.toList s.toList.length s.toList)

/-- Python sep.join for a list of strings. -/
def joinWith (sep : String) (l : List String) : String :=
  match l with
  | [] => ""
  | x :: xs => xs.foldl (fun acc y => acc ++ sep ++ y) x

/-- Accumulate the decimal value of a digit list. -/
def digitsToNat (l : List Char) : Nat :=
  l.foldl (fun a c => a * 10 + (c.toNat - 48)) 0

/-- Python int() on a string: strip whitespace, optional sign, then a
nonempty run of digits; anything else raises ValueError, modelled as none. -/
def pyInt (s : String) : Option Int :=
  match trimList s.toList with
  | [] => none
  | c :: rest =>
      if c == '-' then
        if rest != [] && rest.all Char.isDigit then some (-(digitsToNat rest : Int)) else none
      else if c == '+' then
        if rest != [] && rest.all Char.isDigit then some ((digitsToNat rest : Int)) else none
      else
        if (c :: rest).all Char.isDigit then some ((digitsToNat (c :: rest) : Int)) else none

/-- One movie-detail record as consumed by parse_movie_details: each field of
the source JSON object is either absent or a string. -/
structure MovieData where
  title : Option String
  media_title_info : Option String
  field_series : Option String
  venue_title : Option String
  field_url : Option String
deriving Repr, DecidableEq

/-- The dictionary returned by parse_movie_details. -/
structure ParsedMovie where
  title : String
  director : String
  year : String
  runtime : String
  series : String
  venue : String
  url : String
deriving Repr, DecidableEq

/-- scraper.py lines 86 to 88: strip the four known venue suffixes from the
title.  Python str.replace removes every occurrence, and all four patterns
are tried in the listed order. -/
def stripVenueSuffixes (title : String) : String :=
  pyReplace (pyReplace (pyReplace (pyReplace title
    " at IFC Center" "") " at Film Forum" "") " at Metrograph" "") " at Anthology Film Archives" ""

/-- The director, year and runtime slots filled by the token loop of
parse_movie_details. -/
structure InfoFields where
  director : String
  year : String
  runtime : String
deriving Repr, DecidableEq

/-- scraper.py lines 99 to 105: classify one comma-separated token.  A
4-character all-digit token is stored as year; otherwise a token holding the
letter M and at least one digit is stored as runtime with trailing M
characters removed; any other nonempty token is stored as director.  Each
store overwrites the previous value of its slot. -/
def classifyToken (acc : InfoFields) (part : String) : InfoFields :=
  let t := pyStrip part
  if pyIsdigit t && t.length == 4 then
    InfoFields.mk acc.director t acc.runtime
  else if strContainsChar t 'M' && strHasDigit part then
    InfoFields.mk acc.director acc.year (rstripChar t 'M')
  else if t != "" then
    InfoFields.mk t acc.year acc.runtime
  else acc

/-- scraper.py lines 97 to 98: remove the span tags, strip, split on commas
and strip each piece. -/
def media_title_tokens (info : String) : List String :=
  (splitOnChar ',' (pyStrip (pyReplace (pyReplace info "<span>" "") "</span>" "")).toList).map
    (fun p => String.mk (trimList p))

/-- scraper.py lines 92 to 105: the media_title_info field parsed into
director, year and runtime; an empty info string leaves all three empty. -/
def parse_media_title_info (info : String) : InfoFields :=
  if info != "" then (media_title_tokens info).foldl classifyToken (InfoFields.mk "" "" "")
  else InfoFields.mk "" "" ""

/-- scraper.py lines 112 to 114 as a regular-expression search for the
pattern of a greater-than sign, one or more characters other than a
less-than sign, then a less-than sign: scan left to right for the first
position where a match starts and return the captured middle characters. -/
def seriesSearch : List Char → Option (List Char)
  | [] => none
  | c :: rest =>
      if c == '>' then
        let content := rest.takeWhile (fun ch => ch != '<')
        if content.length != 0 && content.length < rest.length then some content
        else seriesSearch rest
      else seriesSearch rest

/-- scraper.py lines 108 to 114: parse the field_series value.  The three
replace calls in the source substitute the escape sequences backslash-u003C,
backslash-u003E and backslash-u0022, which Python has already decoded to the
very characters being substituted, so they are identity maps and are not
repeated here.  If the regular expression matches, the captured group
replaces the value; otherwise the value is kept. -/
def parse_field_series (series : String) : String :=
  if series != "" then
    match seriesSearch series.toList with
    | some content => String.mk content
    | none => series
  else series

/-- scraper.py lines 117 to 126: venue selection by case-sensitive substring
containment, tested in the order IFC Center, Film Forum, Metrograph,
Anthology Film Archives, defaulting to the empty string. -/
def canonicalize_venue (venue_title : String) : String :=
  if strContains venue_title "IFC Center" then "IFC Center"
  else if strContains venue_title "Film Forum" then "Film Forum"
  else if strContains venue_title "Metrograph" then "Metrograph"
  else if strContains venue_title "Anthology Film Archives" then "Anthology Film Archives"
  else ""

/-- scraper.py lines 83 to 139: parse_movie_details on a record whose fields
are each absent or a string; an absent field defaults to the empty string
exactly as movie_data.get does. -/
def parse_movie_details (movie_data : MovieData) : ParsedMovie :=
  let info := parse_media_title_info (movie_data.media_title_info.getD "")
  ParsedMovie.mk
    (stripVenueSuffixes (movie_data.title.getD ""))
    info.director
    info.year
    info.runtime
    (parse_field_series (movie_data.field_series.getD ""))
    (canonicalize_venue (movie_data.venue_title.getD ""))
    (movie_data.field_url.getD "")

/-- scraper.py lines 51 to 81: fetch_movie_details joins every requested id
with a plus sign into a single query path and issues exactly one request.
The network is abstracted by the respond argument mapping the request string
to its decoded body, none standing for a transport error, a non-2xx status
or an undecodable body.  The first component records the requests issued. -/
def fetch_movie_details (respond : String → Option (List (String × MovieData)))
    (screening_ids : List String) :
    List String × Option (List (String × MovieData)) :=
  let ids_param := joinWith "+" screening_ids
  ([ids_param], respond ids_param)

/-- One time slot of the date index as used by generate_calendar. -/
structure Slot where
  nid : Nat
  field_timestamp : String
deriving Repr, DecidableEq

/-- The screening dictionary accumulated by generate_calendar.  The datetime
field keeps the raw slot timestamp string; calendar-library localization is
outside the claims. -/
structure Screening where
  title : String
  director : String
  year : String
  runtime : String
  series : String
  datetime : String
  venue : String
  url : String
deriving Repr, DecidableEq

/-- scraper.py lines 275 to 291, body of the per-slot loop: look the slot id
up in the detail map, parse, and append a screening only when the parsed
venue is nonempty. -/
def combineStep (movie_details : List (String × MovieData))
    (all_screenings : List Screening) (slot : Slot) : List Screening :=
  match movie_details.lookup (toString slot.nid) with
  | some md =>
      let movie := parse_movie_details md
      if movie.venue != "" then
        all_screenings ++
          [Screening.mk movie.title movie.director movie.year movie.runtime movie.series
            slot.field_timestamp movie.venue movie.url]
      else all_screenings
  | none => all_screenings

/-- scraper.py lines 273 to 291: the combining loop of generate_calendar for
one date, starting from an empty accumulator. -/
def combine_day (time_slots : List Slot) (movie_details : List (String × MovieData)) :
    List Screening :=
  time_slots.foldl (combineStep movie_details) []

/-- The calendar event assembled by create_event.  The dtstart field keeps
the naive timestamp string; timezone localization is outside the claims. -/
structure Event where
  summary : String
  description : String
  dtstart : String
  duration_minutes : Int
  location : String
  url : String
deriving Repr, DecidableEq

/-- scraper.py lines 141 to 175: create_event.  The duration is the Python
int conversion of the runtime string when that string is nonempty, else 120;
a nonempty runtime that int() rejects raises ValueError, modelled as none. -/
def create_event (screening : Screening) : Option Event :=
  let summary := screening.title ++
    (if screening.year != "" then " (" ++ screening.year ++ ")" else "")
  let d1 : List String := []
  let d2 := if screening.director != "" then d1 ++ ["Director: " ++ screening.director] else d1
  let d3 := if screening.runtime != "" then d2 ++ ["Runtime: " ++ screening.runtime ++ " minutes"] else d2
  let d4 := if screening.series != "" then d3 ++ ["Series: " ++ screening.series] else d3
  let d5 := d4 ++ ["More info: " ++ screening.url]
  match (if screening.runtime != "" then pyInt screening.runtime else some 120) with
  | some dm =>
      some (Event.mk (summary ++ " at " ++ screening.venue) (joinWith "\n" d5)
        screening.datetime dm screening.venue screening.url)
  | none => none

/-- The description line list of create_event written as one concatenation:
director, runtime and series lines appear exactly when nonempty and the
more-info line is always last. -/
def description_lines (sc : Screening) : List String :=
  (if sc.director != "" then ["Director: " ++ sc.director] else []) ++
  (if sc.runtime != "" then ["Runtime: " ++ sc.runtime ++ " minutes"] else []) ++
  (if sc.series != "" then ["Series: " ++ sc.series] else []) ++
  ["More info: " ++ sc.url]

/-- A Python value as it may appear in the decoded JSON object handed to
parse_movie_details: a string, an integer or the value None. -/
inductive PyVal where
  | str (s : String)
  | int (n : Int)
  | null
deriving Repr, DecidableEq

/-- A Python dictionary with string keys, as an association list. -/
abbrev PyDict := List (String × PyVal)

/-- Python dict.get with a default: never raises. -/
def pyGet (d : PyDict) (k : String) (dflt : PyVal) : PyVal :=
  (d.lookup k).getD dflt

/-- Python truthiness for the modelled values. -/
def pyTruthy : PyVal → Bool
  | PyVal.str s => s != ""
  | PyVal.int n => n != 0
  | PyVal.null => false

/-- scraper.py lines 86 to 88 on an arbitrary value: the replace calls on the
title require a string; any other value raises AttributeError. -/
def exTitle (d : PyDict) : Except String String :=
  match pyGet d "title" (PyVal.str "") with
  | PyVal.str s => Except.ok (stripVenueSuffixes s)
  | _ => Except.error "AttributeError"

/-- scraper.py lines 91 to 105 on an arbitrary value: a falsy info value
leaves all three fields empty without touching the value; a truthy value is
sent through replace and so must be a string, else AttributeError. -/
def exInfo (d : PyDict) : Except String InfoFields :=
  let v := pyGet d "media_title_info" (PyVal.str "")
  if pyTruthy v then
    match v with
    | PyVal.str s => Except.ok (parse_media_title_info s)
    | _ => Except.error "AttributeError"
  else Except.ok (InfoFields.mk "" "" "")

/-- scraper.py lines 108 to 114 on an arbitrary value: a falsy series value
is passed through unchanged; a truthy value is sent through replace and so
must be a string, else AttributeError. -/
def exSeries (d : PyDict) : Except String PyVal :=
  let v := pyGet d "field_series" (PyVal.str "")
  if pyTruthy v then
    match v with
    | PyVal.str s => Except.ok (PyVal.str (parse_field_series s))
    | _ => Except.error "AttributeError"
  else Except.ok v

/-- scraper.py lines 117 to 126 on an arbitrary value: the containment tests
require a string on the right of the in operator; an integer or None raises
TypeError. -/
def exVenue (d : PyDict) : Except String String :=
  match pyGet d "venue_title" (PyVal.str "") with
  | PyVal.str s => Except.ok (canonicalize_venue s)
  | _ => Except.error "TypeError"

/-- scraper.py lines 83 to 139: parse_movie_details over Python values, with
exceptions made explicit.  The field computations are sequenced in source
order; the url value is returned untouched exactly as in line 129. -/
def parse_movie_details_py (movie_data : PyDict) : Except String PyDict :=
  match exTitle movie_data, exInfo movie_data, exSeries movie_data, exVenue movie_data with
  | Except.ok t, Except.ok info, Except.ok sv, Except.ok v =>
      Except.ok [("title", PyVal.str t), ("director", PyVal.str info.director),
        ("year", PyVal.str info.year), ("runtime", PyVal.str info.runtime),
        ("series", sv), ("venue", PyVal.str v),
        ("url", pyGet movie_data "field_url" (PyVal.str ""))]
  | Except.error e, _, _, _ => Except.error e
  | _, Except.error e, _, _ => Except.error e
  | _, _, Except.error e, _ => Except.error e
  | _, _, _, Except.error e => Except.error e

/-- A dictionary entry that is absent or bound to a string. -/
def strOrAbsentB : Option PyVal → Bool
  | none => true
  | some (PyVal.str _) => true
  | some _ => false

/-- The token test of the year branch on line 100: the stripped token is
nonempty, all digits, and exactly 4 characters long. -/
def isYearToken (p : String) : Bool :=
  pyIsdigit (pyStrip p) && (pyStrip p).length == 4

/-- The venue whitelist in the order the specification declares it. -/
def venue_whitelist : List String :=
  ["Film Forum", "Metrograph", "IFC Center", "Anthology Film Archives"]

/-- The order in which the code actually tests the whitelist names. -/
def venue_priority : List String :=
  ["IFC Center", "Film Forum", "Metrograph", "Anthology Film Archives"]

/-- The ids 1 to n as decimal strings. -/
def idsN (n : Nat) : List String :=
  (List.range n).map (fun i => toString (i + 1))

/-- A minimal successful movie detail record. -/
def mdOk : MovieData :=
  MovieData.mk (some "T") none none (some "Film Forum") none

/-- A network oracle that answers the request for ids 1 to 20 with a full
detail map but fails on every other request, in particular on the single
request carrying ids 1 to 25. -/
def oracle25 : String → Option (List (String × MovieData)) :=
  fun req =>
    if req == joinWith "+" (idsN 20) then some ((idsN 20).map (fun i => (i, mdOk)))
    else none

/-- Scenario A input of the specification. -/
def mdVarda : MovieData :=
  MovieData.mk none (some "Agnès Varda, 1985, 90M, DCP") none none none

/-- An info text with one token starting 19 or 20 and a later 4-digit token
that does not. -/
def mdTwoYears : MovieData :=
  MovieData.mk none (some "1985, 3000") none none none

/-- An info text whose single 4-digit token sits between other tokens. -/
def mdYearMid : MovieData :=
  MovieData.mk none (some "Foo, 1985, 90M") none none none

/-- Scenario B input of the specification: a title with a venue suffix and no
venue_title field. -/
def mdDielman : MovieData :=
  MovieData.mk (some "Jeanne Dielman at Film Forum") none none none none

/-- A screening whose runtime string is the digit zero. -/
def scZeroRuntime : Screening :=
  Screening.mk "T" "" "" "0" "" "2024-01-01T19:00:00" "Film Forum" ""

/-- The event create_event builds from scZeroRuntime. -/
def evZeroRuntime : Event :=
  Event.mk "T at Film Forum" "Runtime: 0 minutes\nMore info: " "2024-01-01T19:00:00" 0
    "Film Forum" ""

/-- A screening with every optional field empty, including the url. -/
def scEmptyFields : Screening :=
  Screening.mk "T" "" "" "" "" "d" "V" ""

/-- The event create_event builds from scEmptyFields. -/
def evEmptyFields : Event :=
  Event.mk "T at V" "More info: " "d" 120 "V" ""

/-- A one-slot index. -/
def slotsOne : List Slot :=
  [Slot.mk 1 "2024-01-01T19:00:00"]

/-- A detail map resolving the one slot to a Film Forum screening. -/
def detailsOne : List (String × MovieData) :=
  [("1", MovieData.mk (some "X") none none (some "Film Forum") none)]

/-- The screening produced from slotsOne and detailsOne. -/
def scrX : Screening :=
  Screening.mk "X" "" "" "" "" "2024-01-01T19:00:00" "Film Forum" ""

/-- A sample well-typed input dictionary for parse_movie_details_py. -/
def dictSample : PyDict :=
  [("title", PyVal.str "Movie at Metrograph"), ("media_title_info", PyVal.str "Dir, 1999, 100M")]

/-
Helper lemmas.  None of these is a claim theorem.
-/

/-- The year slot after classifying one token: overwritten exactly when the
token passes the 4-digit test, untouched otherwise. -/
theorem classifyToken_year_eq (acc : InfoFields) (p : String) :
    (classifyToken acc p).year = if isYearToken p then pyStrip p else acc.year := by
  by_cases h1 : (pyIsdigit (pyStrip p) && (pyStrip p).length == 4) = true <;>
    by_cases h2 : (strContainsChar (pyStrip p) 'M' && strHasDigit p) = true <;>
    by_cases h3 : (pyStrip p != "") = true <;>
    simp [classifyToken, isYearToken, h1, h2, h3]

/-- The year slot of the whole token loop, as a fold over years only. -/
theorem foldl_classify_year (parts : List String) (acc : InfoFields) :
    (parts.foldl classifyToken acc).year =
      parts.foldl (fun y p => if isYearToken p then pyStrip p else y) acc.year := by
  induction parts generalizing acc with
  | nil => rfl
  | cons p ps ih =>
      rw [List.foldl_cons, List.foldl_cons, ih, classifyToken_year_eq]

/-- A run of tokens with no year token leaves the year slot unchanged. -/
theorem foldl_year_skip (parts : List String) (y : String)
    (h : ∀ p ∈ parts, isYearToken p = false) :
    parts.foldl (fun y p => if isYearToken p then pyStrip p else y) y = y := by
  induction parts generalizing y with
  | nil => rfl
  | cons p ps ih =>
      rw [List.foldl_cons]
      have hp := h p (by simp)
      rw [hp]
      simp only [Bool.false_eq_true, if_false]
      exact ih y (fun q hq => h q (by simp [hq]))

/-- The year slot is always empty or a 4-digit token. -/
theorem foldl_year_shape (parts : List String) (y : String)
    (hy : y = "" ∨ (pyIsdigit y && y.length == 4) = true) :
    parts.foldl (fun y p => if isYearToken p then pyStrip p else y) y = "" ∨
      (pyIsdigit (parts.foldl (fun y p => if isYearToken p then pyStrip p else y) y) &&
        (parts.foldl (fun y p => if isYearToken p then pyStrip p else y) y).length == 4) = true := by
  induction parts generalizing y with
  | nil => exact hy
  | cons p ps ih =>
      rw [List.foldl_cons]
      by_cases hp : isYearToken p = true
      · rw [hp]
        simp only [if_true]
        exact ih (pyStrip p) (Or.inr (by simpa [isYearToken] using hp))
      · rw [Bool.not_eq_true] at hp
        rw [hp]
        simp only [Bool.false_eq_true, if_false]
        exact ih y hy

/-- The canonicalized venue is empty or a whitelist member. -/
theorem canonicalize_venue_mem (v : String) :
    canonicalize_venue v = "" ∨ canonicalize_venue v ∈ venue_whitelist := by
  by_cases h1 : strContains v "IFC Center" <;>
    by_cases h2 : strContains v "Film Forum" <;>
    by_cases h3 : strContains v "Metrograph" <;>
    by_cases h4 : strContains v "Anthology Film Archives" <;>
    simp [canonicalize_venue, venue_whitelist, h1, h2, h3, h4]

/-
Claim theorems.
-/

/-- Claim C1, counterexample: a set of 21 ids is sent as one single request,
not as two requests of 20 and 1. -/
theorem single_request_counterexample :
    ((fetch_movie_details (fun _ => none) (idsN 21)).1).length = 1 ∧
    ((fetch_movie_details (fun _ => none) (idsN 21)).1).length ≠ 2 := by
  exact ⟨rfl, by decide⟩

/-- Claim C1, amended: fetch_movie_details never partitions; it issues
exactly one request whose query path joins every requested id with a plus
sign, for any number of ids. -/
theorem single_request_amended (respond : String → Option (List (String × MovieData)))
    (screening_ids : List String) :
    (fetch_movie_details respond screening_ids).1 = [joinWith "+" screening_ids] ∧
    ((fetch_movie_details respond screening_ids).1).length = 1 :=
  ⟨rfl, rfl⟩

/-- Claim C2, counterexample: with an oracle that would serve the ids 1 to 20
but fails any request touching id 21, fetching ids 1 to 25 yields nothing at
all, so the details of ids 1 to 20 are lost rather than returned. -/
theorem batch_failure_counterexample :
    (fetch_movie_details oracle25 (idsN 25)).2 = none ∧
    (fetch_movie_details oracle25 (idsN 20)).2 ≠ none := by decide

/-- Claim C2, amended: a failure of the single detail request leaves every id
of the date unresolved; there is no second batch to salvage. -/
theorem batch_failure_amended (respond : String → Option (List (String × MovieData)))
    (screening_ids : List String)
    (h : respond (joinWith "+" screening_ids) = none) :
    (fetch_movie_details respond screening_ids).2 = none := h

/-- Witness for the amended claim C2 at a concrete failing oracle. -/
theorem batch_failure_amended_witness :
    (fetch_movie_details (fun _ => none) (idsN 25)).2 = none :=
  batch_failure_amended (fun _ => none) (idsN 25) rfl

/-- Claim C4, counterexample: on the Scenario A info text the extractor
stores DCP in the director slot, overwriting the name parsed earlier. -/
theorem format_token_counterexample :
    (parse_movie_details mdVarda).director = "DCP" ∧
    (parse_movie_details mdVarda).director ≠ "Agnès Varda" := by decide

/-- Claim C4, amended: there is no format classification and no format output
field; a format token without the letter M, such as DCP, falls through to the
director branch and overwrites the director, so Scenario A yields director
DCP, year 1985 and runtime 90. -/
theorem format_token_amended :
    parse_movie_details mdVarda = ParsedMovie.mk "" "DCP" "1985" "90" "" "" "" := by decide

/-- Claim C5, counterexample: matching is case sensitive, so a lowercase
venue string matches nothing, and a string containing two whitelist names
resolves to IFC Center, not to Film Forum. -/
theorem venue_priority_counterexample :
    canonicalize_venue "film forum" = "" ∧
    canonicalize_venue "Film Forum IFC Center" = "IFC Center" ∧
    ("" : String) ≠ "Film Forum" ∧ ("IFC Center" : String) ≠ "Film Forum" := by decide

/-- Claim C5, amended: the canonicalizer returns the first whitelist name
contained case-sensitively in the venue string, tested in the order IFC
Center, Film Forum, Metrograph, Anthology Film Archives, and the empty
string when none is contained. -/
theorem venue_priority_amended (v : String) :
    canonicalize_venue v = (venue_priority.find? (fun n => strContains v n)).getD "" := by
  by_cases h1 : strContains v "IFC Center" <;>
    by_cases h2 : strContains v "Film Forum" <;>
    by_cases h3 : strContains v "Metrograph" <;>
    by_cases h4 : strContains v "Anthology Film Archives" <;>
    simp [canonicalize_venue, venue_priority, List.find?, h1, h2, h3, h4]

/-- Claim C6, counterexample: the Scenario B title is stripped, but no
candidate venue is recorded from the suffix, so with no venue_title field the
venue stays empty and canonicalization does not succeed. -/
theorem title_suffix_counterexample :
    (parse_movie_details mdDielman).title = "Jeanne Dielman" ∧
    (parse_movie_details mdDielman).venue = "" ∧
    (parse_movie_details mdDielman).venue ≠ "Film Forum" := by decide

/-- Claim C6, amended: the extractor deletes every occurrence of each known
venue suffix from the title but never records a candidate venue; the venue
is computed solely from the venue_title field, so the Scenario B title yields
the stripped title and an empty venue. -/
theorem title_suffix_amended :
    (∀ md : MovieData,
        (parse_movie_details md).venue = canonicalize_venue (md.venue_title.getD "")) ∧
    (parse_movie_details mdDielman).title = "Jeanne Dielman" ∧
    (parse_movie_details mdDielman).venue = "" :=
  ⟨fun _ => rfl, by decide, by decide⟩

/-- Claim C3, counterexample: the code never tests the leading digits, and a
later 4-digit token overwrites an earlier one, so the info text holding the
tokens 1985 and 3000 yields the year 3000 although 1985 is its only token
starting 19 or 20, and 3000 is classified as year although it starts 30. -/
theorem year_token_counterexample :
    (parse_movie_details mdTwoYears).year = "3000" ∧
    (parse_movie_details mdTwoYears).year ≠ "1985" := by decide

/-- Claim C3, amended: a token is classified as year exactly when its
stripped form is a nonempty all-digit string of length 4, with no condition
on the leading digits; the last such token wins, so when the token list
holds exactly one such token the year equals that token stripped, regardless
of its position; and the extracted year is always empty or such a token. -/
theorem year_token_classification :
    (∀ (md : MovieData) (l₁ l₂ : List String) (t : String),
        media_title_tokens (md.media_title_info.getD "") = l₁ ++ t :: l₂ →
        (∀ p ∈ l₁, isYearToken p = false) →
        (∀ p ∈ l₂, isYearToken p = false) →
        isYearToken t = true →
        (parse_movie_details md).year = pyStrip t) ∧
    (∀ md : MovieData, (parse_movie_details md).year = "" ∨
        (pyIsdigit (parse_movie_details md).year &&
          ((parse_movie_details md).year).length == 4) = true) := by
  constructor
  · intro md l₁ l₂ t heq h1 h2 ht
    have hyear : (parse_movie_details md).year =
        (parse_media_title_info (md.media_title_info.getD "")).year := rfl
    rw [hyear]
    by_cases hinfo : md.media_title_info.getD "" = ""
    · exfalso
      rw [hinfo] at heq
      have htok : media_title_tokens "" = [""] := by decide
      rw [htok] at heq
      cases l₁ with
      | nil =>
          simp only [List.nil_append] at heq
          injection heq with ha hb
          rw [← ha] at ht
          exact absurd ht (by decide)
      | cons a as =>
          injection heq with ha hb
          exact absurd hb.symm (by simp)
    · unfold parse_media_title_info
      rw [if_pos (by simpa using hinfo)]
      rw [foldl_classify_year, heq, List.foldl_append, List.foldl_cons, ht]
      simp only [if_true]
      exact foldl_year_skip l₂ (pyStrip t) h2
  · intro md
    have hyear : (parse_movie_details md).year =
        (parse_media_title_info (md.media_title_info.getD "")).year := rfl
    rw [hyear]
    unfold parse_media_title_info
    by_cases hinfo : (md.media_title_info.getD "" != "") = true
    · rw [if_pos hinfo, foldl_classify_year]
      exact foldl_year_shape _ "" (Or.inl rfl)
    · rw [if_neg hinfo]
      left
      rfl

/-- Witness for the amended claim C3: the single 4-digit token 1985 sitting
between two other tokens is extracted as the year. -/
theorem year_token_classification_witness :
    (parse_movie_details mdYearMid).year = pyStrip "1985" :=
  year_token_classification.1 mdYearMid ["Foo"] ["90M"] "1985"
    (by decide) (by decide) (by decide) (by decide)

/-- create_event written as one case split: the summary, the description as
the concatenated line list, and the duration from the match on the runtime
conversion. -/
theorem create_event_eq (sc : Screening) :
    create_event sc =
      match (if sc.runtime != "" then pyInt sc.runtime else some (120 : Int)) with
      | some dm => some (Event.mk
          ((sc.title ++ (if sc.year != "" then " (" ++ sc.year ++ ")" else "")) ++
            " at " ++ sc.venue)
          (joinWith "\n" (description_lines sc)) sc.datetime dm sc.venue sc.url)
      | none => none := by
  unfold create_event description_lines
  by_cases h1 : (sc.director != "") = true <;>
    by_cases h2 : (sc.runtime != "") = true <;>
    by_cases h3 : (sc.series != "") = true <;>
    cases hp : (if sc.runtime != "" then pyInt sc.runtime else some (120 : Int)) <;>
    simp [h1, h2, h3, hp]

/-- Claim C7, counterexample: a present but non-positive runtime is not
defaulted; the runtime string 0 yields a zero-minute duration, not 120. -/
theorem runtime_default_counterexample :
    (create_event scZeroRuntime).map Event.duration_minutes = some 0 ∧
    some (0 : Int) ≠ some (120 : Int) := by decide

/-- Claim C7, amended: the duration is the Python int conversion of the
runtime string whenever that string is nonempty, zero included, and the
fixed default 120 is used exactly when the runtime string is empty. -/
theorem runtime_default_amended (sc : Screening) (e : Event)
    (h : create_event sc = some e) :
    (sc.runtime = "" ∧ e.duration_minutes = 120) ∨
    (sc.runtime ≠ "" ∧ pyInt sc.runtime = some e.duration_minutes) := by
  rw [create_event_eq] at h
  by_cases hr : sc.runtime = ""
  · left
    refine ⟨hr, ?_⟩
    rw [hr] at h
    simp at h
    rw [← h]
  · right
    refine ⟨hr, ?_⟩
    have hb : (sc.runtime != "") = true := by simpa using hr
    rw [hb] at h
    simp only [if_true] at h
    cases hp : pyInt sc.runtime with
    | none =>
        rw [hp] at h
        exact absurd h (by simp)
    | some n =>
        rw [hp] at h
        simp at h
        rw [← h]

/-- Witness for the amended claim C7 at the zero-runtime screening. -/
theorem runtime_default_amended_witness :
    (scZeroRuntime.runtime = "" ∧ evZeroRuntime.duration_minutes = 120) ∨
    (scZeroRuntime.runtime ≠ "" ∧ pyInt scZeroRuntime.runtime = some evZeroRuntime.duration_minutes) :=
  runtime_default_amended scZeroRuntime evZeroRuntime (by decide)

/-- Claim C8, counterexample: with every field empty the description still
holds the more-info line with an empty url, instead of omitting it. -/
theorem description_counterexample :
    (create_event scEmptyFields).map Event.description = some "More info: " ∧
    ("More info: " : String) ≠ "" := by decide

/-- Claim C8, amended: the description lines appear in the fixed order
director, runtime, series, more-info, with the first three omitted when
their field is empty; there is no note line, and the more-info line is
always emitted, even when the url is empty. -/
theorem description_amended (sc : Screening) (e : Event)
    (h : create_event sc = some e) :
    e.description = joinWith "\n" (description_lines sc) := by
  rw [create_event_eq] at h
  cases hp : (if sc.runtime != "" then pyInt sc.runtime else some (120 : Int)) with
  | none =>
      rw [hp] at h
      exact absurd h (by simp)
  | some dm =>
      rw [hp] at h
      simp at h
      rw [← h]

/-- Witness for the amended claim C8 at the all-empty screening. -/
theorem description_amended_witness :
    evEmptyFields.description = joinWith "\n" (description_lines scEmptyFields) :=
  description_amended scEmptyFields evEmptyFields (by decide)

/-- The venue invariant is preserved by the whole per-date fold. -/
theorem combine_foldl_venue (movie_details : List (String × MovieData)) (slots : List Slot)
    (acc : List Screening) (hacc : ∀ s ∈ acc, s.venue ∈ venue_whitelist) :
    ∀ s ∈ slots.foldl (combineStep movie_details) acc, s.venue ∈ venue_whitelist := by
  induction slots generalizing acc with
  | nil => simpa using hacc
  | cons slot rest ih =>
      rw [List.foldl_cons]
      refine ih (combineStep movie_details acc slot) ?_
      intro s2 hs2
      simp only [combineStep] at hs2
      cases hmd : (movie_details.lookup (toString slot.nid)) with
      | none =>
          rw [hmd] at hs2
          exact hacc s2 hs2
      | some md =>
          rw [hmd] at hs2
          by_cases hv : ((parse_movie_details md).venue != "") = true
          · simp only [hv, if_true, List.mem_append] at hs2
            rcases hs2 with hs2 | hs2
            · exact hacc s2 hs2
            · simp only [List.mem_singleton] at hs2
              subst hs2
              rcases canonicalize_venue_mem (md.venue_title.getD "") with hz | hm
              · exfalso
                have : (parse_movie_details md).venue = "" := hz
                rw [this] at hv
                exact absurd hv (by decide)
              · exact hm
          · simp only [hv, Bool.false_eq_true, if_false] at hs2
            exact hacc s2 hs2

/-- Claim C9: every screening the per-date combining loop ever appends has a
venue in the whitelist; a record whose parsed venue is empty is never
constructed. -/
theorem combine_day_venue_whitelist (time_slots : List Slot)
    (movie_details : List (String × MovieData)) (s : Screening)
    (hs : s ∈ combine_day time_slots movie_details) :
    s.venue ∈ venue_whitelist :=
  combine_foldl_venue movie_details time_slots [] (by simp) s hs

/-- Witness for claim C9 at a concrete one-slot date. -/
theorem combine_day_venue_whitelist_witness : scrX.venue ∈ venue_whitelist :=
  combine_day_venue_whitelist slotsOne detailsOne scrX (by decide)

/-- A key that is absent or bound to a string is read by dict.get as some
string. -/
theorem strOrAbsent_get (d : PyDict) (k : String)
    (h : strOrAbsentB (d.lookup k) = true) :
    ∃ s : String, pyGet d k (PyVal.str "") = PyVal.str s := by
  unfold pyGet
  cases ho : d.lookup k with
  | none => exact ⟨"", rfl⟩
  | some v =>
      cases v with
      | str s => exact ⟨s, rfl⟩
      | int n => rw [ho] at h; exact absurd h (by simp [strOrAbsentB])
      | null => rw [ho] at h; exact absurd h (by simp [strOrAbsentB])

/-- Claim C10: on any input dictionary whose five accessed fields are each
absent or a string, parse_movie_details raises no exception and returns a
dictionary with exactly the keys title, director, year, runtime, series,
venue, url, each bound to a string.  The function is a pure Lean map of the
dictionary, so the input is not modified by construction. -/
theorem parse_details_total (d : PyDict)
    (h1 : strOrAbsentB (d.lookup "title") = true)
    (h2 : strOrAbsentB (d.lookup "media_title_info") = true)
    (h3 : strOrAbsentB (d.lookup "field_series") = true)
    (h4 : strOrAbsentB (d.lookup "venue_title") = true)
    (h5 : strOrAbsentB (d.lookup "field_url") = true) :
    ∃ out : PyDict, parse_movie_details_py d = Except.ok out ∧
      out.map Prod.fst = ["title", "director", "year", "runtime", "series", "venue", "url"] ∧
      ∀ kv ∈ out, ∃ s : String, kv.2 = PyVal.str s := by
  obtain ⟨s1, e1⟩ := strOrAbsent_get d "title" h1
  obtain ⟨s2, e2⟩ := strOrAbsent_get d "media_title_info" h2
  obtain ⟨s3, e3⟩ := strOrAbsent_get d "field_series" h3
  obtain ⟨s4, e4⟩ := strOrAbsent_get d "venue_title" h4
  obtain ⟨s5, e5⟩ := strOrAbsent_get d "field_url" h5
  have ht : exTitle d = Except.ok (stripVenueSuffixes s1) := by
    unfold exTitle
    rw [e1]
  have hi : exInfo d = Except.ok (parse_media_title_info s2) := by
    unfold exInfo
    rw [e2]
    by_cases hs : s2 = ""
    · subst hs
      simp [pyTruthy, parse_media_title_info]
    · simp [pyTruthy, hs]
  have hse : ∃ s6 : String, exSeries d = Except.ok (PyVal.str s6) := by
    unfold exSeries
    rw [e3]
    by_cases hs : s3 = ""
    · subst hs
      exact ⟨"", by simp [pyTruthy]⟩
    · exact ⟨parse_field_series s3, by simp [pyTruthy, hs]⟩
  obtain ⟨s6, hs6⟩ := hse
  have hv : exVenue d = Except.ok (canonicalize_venue s4) := by
    unfold exVenue
    rw [e4]
  refine ⟨[("title", PyVal.str (stripVenueSuffixes s1)),
      ("director", PyVal.str (parse_media_title_info s2).director),
      ("year", PyVal.str (parse_media_title_info s2).year),
      ("runtime", PyVal.str (parse_media_title_info s2).runtime),
      ("series", PyVal.str s6),
      ("venue", PyVal.str (canonicalize_venue s4)),
      ("url", PyVal.str s5)], ?_, ?_, ?_⟩
  · unfold parse_movie_details_py
    rw [ht, hi, hs6, hv, e5]
  · simp
  · intro kv hkv
    simp only [List.mem_cons, List.not_mem_nil, or_false] at hkv
    rcases hkv with rfl | rfl | rfl | rfl | rfl | rfl | rfl <;> exact ⟨_, rfl⟩

/-- Witness for claim C10 at a concrete two-field dictionary. -/
theorem parse_details_total_witness :
    ∃ out : PyDict, parse_movie_details_py dictSample = Except.ok out ∧
      out.map Prod.fst = ["title", "director", "year", "runtime", "series", "venue", "url"] ∧
      ∀ kv ∈ out, ∃ s : String, kv.2 = PyVal.str s :=
  parse_details_total dictSample (by decide) (by decide) (by decide) (by decide) (by decide)
